import Mathlib

/-!
Verification of the backend glue layer: a configuration loader
(src/backend-local/src/config/index.js) and a completion service
(the OpenAIService class).  The JavaScript is embedded shallowly:
the process environment is a partial map from variable names to strings,
the upstream completions endpoint is an oracle passed as a function
argument, and each service method is a pure function that returns both
its result and the list of requests it issued.
-/

namespace TTAutomation

/-- A chat message: a role (user or assistant) and a text content. -/
structure ChatMessage where
  role : String
  content : String
deriving DecidableEq

/-- One choice of a completion response; `choice.message.content` is the
generated text. -/
structure Choice where
  message : ChatMessage
deriving DecidableEq

/-- A (non-streaming) completion response from the upstream API. -/
structure Completion where
  choices : List Choice
deriving DecidableEq

/-- The request payload sent to the upstream chat-completions endpoint:
model, messages, max_tokens, temperature, stream.  Fields the JavaScript
code leaves out of the object literal are `none` / `false`. -/
structure Request where
  model : String
  messages : List ChatMessage
  max_tokens : Option Int
  temperature : Option Rat
  stream : Bool
deriving DecidableEq

/-- JavaScript `x || d` for a possibly-undefined string `x`: the empty
string is falsy, so both `undefined` and `""` fall back to `d`. -/
def jsOrString (x : Option String) (d : String) : String :=
  match x with
  | some s => if s = "" then d else s
  | none => d

/-- JavaScript `x || d` for a possibly-undefined integer `x`: `0` is
falsy, so both `undefined` and `0` fall back to `d`. -/
def jsOrInt (x : Option Int) (d : Int) : Int :=
  match x with
  | some n => if n = 0 then d else n
  | none => d

/-- JavaScript `x || d` for a possibly-undefined number `x` (modelled as a
rational): `0` is falsy, so both `undefined` and `0` fall back to `d`. -/
def jsOrRat (x : Option Rat) (d : Rat) : Rat :=
  match x with
  | some q => if q = 0 then d else q
  | none => d

/-- The process environment: `env v = none` models an unset variable,
`env v = some s` a variable set to the string `s`. -/
abbrev EnvMap := String → Option String

/-- The value of the `port` configuration field: `process.env.PORT || 3000`
is the string from the environment when set and non-empty, and the number
3000 otherwise. -/
inductive PortValue
  | str (s : String)
  | num (n : Int)
deriving DecidableEq

/-- The nested `openai` part of the configuration object. -/
structure OpenaiConfig where
  apiKey : Option String
deriving DecidableEq

/-- The nested `cors` part of the configuration object. -/
structure CorsConfig where
  origin : String
deriving DecidableEq

/-- The configuration record built by src/backend-local/src/config/index.js. -/
structure Config where
  port : PortValue
  nodeEnv : String
  openai : OpenaiConfig
  cors : CorsConfig
deriving DecidableEq

/-- The `config` object literal of src/backend-local/src/config/index.js:
each field is `process.env.X || default`, except the API key, which is
read verbatim with no default. -/
def loadConfig (env : EnvMap) : Config :=
  { port :=
      match env "PORT" with
      | some s => if s = "" then PortValue.num 3000 else PortValue.str s
      | none => PortValue.num 3000
    nodeEnv := jsOrString (env "NODE_ENV") "development"
    openai := { apiKey := env "OPENAI_API_KEY" }
    cors := { origin := jsOrString (env "CORS_ORIGIN") "http://localhost:5173" } }

/-- `validateConfig` of src/backend-local/src/config/index.js: filters the
required variable names by JavaScript falsiness of their environment value
(unset or empty string) and throws listing the missing ones, joined by
a comma. -/
def validateConfig (env : EnvMap) : Except String Unit :=
  let requiredVars : List String := ["OPENAI_API_KEY"]
  let missingVars := requiredVars.filter fun varName =>
    match env varName with
    | none => true
    | some s => s = ""
  if missingVars.length > 0 then
    Except.error ("Missing required environment variables: "
      ++ String.intercalate ", " missingVars)
  else
    Except.ok ()

/-- The state of the `OpenAIService` singleton: the API client handle
(identified by the key it is bound to) and the default model identifier. -/
structure OpenAIService where
  openaiApiKey : Option String
  model : String
deriving DecidableEq

/-- The `OpenAIService` constructor: binds the client to the configured
API key and fixes the default model. -/
def OpenAIService.init (config : Config) : OpenAIService :=
  { openaiApiKey := config.openai.apiKey
    model := "gpt-4o-mini" }

/-- The optional second argument of `generateText`; unrecognized keys are
never read, so only the three recognized ones are modelled. -/
structure GenerationOptions where
  model : Option String := none
  maxTokens : Option Int := none
  temperature : Option Rat := none
deriving DecidableEq

/-- The upstream completions endpoint, as an oracle: the external
collaborator either returns a completion or fails with some error detail. -/
abbrev CompletionsApi := Request → Except String Completion

/-- The chunks of a streaming response, in arrival order. -/
abbrev StreamChunks := List String

/-- The upstream completions endpoint in streaming mode. -/
abbrev StreamApi := Request → Except String StreamChunks

/-- The request payload `generateText` builds: one user message and the
three `options.x || default` fields. -/
def generateTextRequest (svc : OpenAIService) (prompt : String)
    (options : GenerationOptions) : Request :=
  { model := jsOrString options.model svc.model
    messages := [{ role := "user", content := prompt }]
    max_tokens := some (jsOrInt options.maxTokens 1000)
    temperature := some (jsOrRat options.temperature (7 / 10 : Rat))
    stream := false }

/-- `completion.choices[0].message.content`: `none` when `choices` is empty
(in JavaScript that access throws inside the try block). -/
def firstChoiceContent (completion : Completion) : Option String :=
  match completion.choices.head? with
  | some choice => some choice.message.content
  | none => none

/-- `generateText`: issues exactly one request and returns the first
completion text, replacing any failure (upstream error, or missing first
choice) by the fixed generic message.  The second component is the list of
requests issued, in order. -/
def generateTextRun (svc : OpenAIService) (api : CompletionsApi)
    (prompt : String) (options : GenerationOptions) :
    Except String String × List Request :=
  let req := generateTextRequest svc prompt options
  match api req with
  | Except.ok completion =>
      match firstChoiceContent completion with
      | some content => (Except.ok content, [req])
      | none => (Except.error "Failed to generate text response", [req])
  | Except.error _ => (Except.error "Failed to generate text response", [req])

/-- The request payload `generateTextStream` builds: same single user
message and default model, `stream: true`, and no max_tokens or
temperature keys. -/
def generateTextStreamRequest (svc : OpenAIService) (prompt : String) :
    Request :=
  { model := svc.model
    messages := [{ role := "user", content := prompt }]
    max_tokens := none
    temperature := none
    stream := true }

/-- `generateTextStream`: issues exactly one streaming request and returns
the stream, replacing any failure to establish it by the fixed generic
message. -/
def generateTextStreamRun (svc : OpenAIService) (api : StreamApi)
    (prompt : String) : Except String StreamChunks × List Request :=
  let req := generateTextStreamRequest svc prompt
  match api req with
  | Except.ok stream => (Except.ok stream, [req])
  | Except.error _ =>
      (Except.error "Failed to generate streaming response", [req])

/-- The request payload `chat` builds: the caller-supplied history followed
by one new user message, the default model, `max_tokens: 1000`, and no
temperature key. -/
def chatRequest (svc : OpenAIService) (history : List ChatMessage)
    (message : String) : Request :=
  { model := svc.model
    messages := history ++ [{ role := "user", content := message }]
    max_tokens := some 1000
    temperature := none
    stream := false }

/-- `chat`: the history argument defaults to the empty list when absent or
undefined (`history = []` in the parameter list); issues exactly one
request and returns the first completion text, replacing any failure by the
fixed generic message. -/
def chatRun (svc : OpenAIService) (api : CompletionsApi)
    (history : Option (List ChatMessage)) (message : String) :
    Except String String × List Request :=
  let req := chatRequest svc (history.getD []) message
  match api req with
  | Except.ok completion =>
      match firstChoiceContent completion with
      | some content => (Except.ok content, [req])
      | none => (Except.error "Failed to process chat message", [req])
  | Except.error _ => (Except.error "Failed to process chat message", [req])

/-- The prompt `analyzeTimetable` builds by a switch on `analysisType`
(absent means the default parameter value "general", which is not a case
label and so selects the default template).  `serializedData` stands for
`JSON.stringify(timetableData)`, the image of the opaque timetable value
under the host serializer, which is external to this repository. -/
def analyzeTimetablePrompt (serializedData : String)
    (analysisType : Option String) : String :=
  let t := analysisType.getD "general"
  if t = "conflicts" then
    "Analyze the following timetable data for scheduling conflicts and provide recommendations: "
      ++ serializedData
  else if t = "optimization" then
    "Suggest optimizations for the following timetable to improve efficiency: "
      ++ serializedData
  else if t = "load" then
    "Analyze the workload distribution in this timetable and suggest improvements: "
      ++ serializedData
  else
    "Provide a general analysis of this timetable data: " ++ serializedData

/-- `analyzeTimetable`: builds the templated prompt, delegates to
`generateText` with the options argument omitted (so the empty options
record), and re-wraps any failure of the inner call in its own fixed
message. -/
def analyzeTimetableRun (svc : OpenAIService) (api : CompletionsApi)
    (serializedData : String) (analysisType : Option String) :
    Except String String × List Request :=
  let inner :=
    generateTextRun svc api (analyzeTimetablePrompt serializedData analysisType) {}
  match inner.1 with
  | Except.ok content => (Except.ok content, inner.2)
  | Except.error _ => (Except.error "Failed to analyze timetable data", inner.2)

/-- The `generateText` method as an explicit state transformer: the method
body reads `this.openai` and `this.model` but contains no assignment to
`this`, so the post state is the receiver itself. -/
def generateTextMethod (svc : OpenAIService) (api : CompletionsApi)
    (prompt : String) (options : GenerationOptions) :
    (Except String String × List Request) × OpenAIService :=
  (generateTextRun svc api prompt options, svc)

/-- The `generateTextStream` method as an explicit state transformer; its
body contains no assignment to `this`. -/
def generateTextStreamMethod (svc : OpenAIService) (api : StreamApi)
    (prompt : String) :
    (Except String StreamChunks × List Request) × OpenAIService :=
  (generateTextStreamRun svc api prompt, svc)

/-- The `chat` method as an explicit state transformer; its body contains
no assignment to `this`. -/
def chatMethod (svc : OpenAIService) (api : CompletionsApi)
    (history : Option (List ChatMessage)) (message : String) :
    (Except String String × List Request) × OpenAIService :=
  (chatRun svc api history message, svc)

/-- The `analyzeTimetable` method as an explicit state transformer; its
body contains no assignment to `this`. -/
def analyzeTimetableMethod (svc : OpenAIService) (api : CompletionsApi)
    (serializedData : String) (analysisType : Option String) :
    (Except String String × List Request) × OpenAIService :=
  (analyzeTimetableRun svc api serializedData analysisType, svc)

/-- An environment with every variable unset. -/
def envEmpty : EnvMap := fun _ => none

/-- An environment whose every variable is a non-empty placeholder. -/
def envAllSet : EnvMap := fun _ => some "sk-test"

/-- The service as constructed from the all-defaults configuration. -/
def svc0 : OpenAIService := OpenAIService.init (loadConfig envEmpty)

/-- An oracle that always answers with one completion of content "Hi!". -/
def apiOk : CompletionsApi := fun _ =>
  Except.ok { choices := [{ message := { role := "assistant", content := "Hi!" } }] }

/-- An oracle that always fails with a detailed error. -/
def apiErr : CompletionsApi := fun _ => Except.error "ECONNRESET"

/-- A streaming oracle that always fails with a detailed error. -/
def streamApiErr : StreamApi := fun _ => Except.error "ECONNRESET"

/-- An environment where PORT is set to the empty string and nothing else
is set. -/
def envPortEmpty : EnvMap := fun v => if v = "PORT" then some "" else none

/-- A mixed environment: PORT set non-empty, NODE_ENV set to the empty
string, the API key set, CORS_ORIGIN unset. -/
def envMixed : EnvMap := fun v =>
  if v = "PORT" then some "8080"
  else if v = "NODE_ENV" then some ""
  else if v = "OPENAI_API_KEY" then some "sk-test"
  else none

/-- In every branch, `generateText` issues exactly the one request it
built: the catch block rethrows without retrying. -/
theorem generateTextRun_requests (svc : OpenAIService) (api : CompletionsApi)
    (prompt : String) (options : GenerationOptions) :
    (generateTextRun svc api prompt options).2
      = [generateTextRequest svc prompt options] := by
  simp only [generateTextRun]
  rcases h : api (generateTextRequest svc prompt options) with e | completion
  · rfl
  · rcases h2 : firstChoiceContent completion with _ | c <;> simp [h2]

/-- In every branch, `analyzeTimetable` issues exactly the requests of its
one delegated `generateText` call, with the empty options record. -/
theorem analyzeTimetableRun_requests (svc : OpenAIService) (api : CompletionsApi)
    (serializedData : String) (analysisType : Option String) :
    (analyzeTimetableRun svc api serializedData analysisType).2
      = [generateTextRequest svc
          (analyzeTimetablePrompt serializedData analysisType) {}] := by
  simp only [analyzeTimetableRun]
  rcases h : (generateTextRun svc api
      (analyzeTimetablePrompt serializedData analysisType)
      ({} : GenerationOptions)).1 with e | c
  all_goals simp [h, generateTextRun_requests]

/-- C1 (counterexample): with temperature explicitly set to 0 — a set key —
the constructed request carries the default 0.7, because JavaScript
`options.temperature || 0.7` treats the set value 0 as falsy.  So it is not
the case that only unset keys fall back to defaults. -/
theorem C1_set_zero_temperature_not_respected :
    (generateTextRequest svc0 "hello" { temperature := some 0 }).temperature
      ≠ some 0 := by
  simp [generateTextRequest, jsOrRat]

/-- C1 (amended): generateText issues exactly one request holding exactly
one user message with the prompt as content and returns the first
completion text verbatim; model is options.model when set and non-empty and
"gpt-4o-mini" otherwise, max_tokens is options.maxTokens when set and
non-zero and 1000 otherwise, temperature is options.temperature when set
and non-zero and 0.7 otherwise — i.e. unset or falsy keys, and only those,
fall back to defaults at call time. -/
theorem C1_generateText_request_and_result (cfg : Config) (prompt : String)
    (options : GenerationOptions) (api : CompletionsApi)
    (completion : Completion) (choice : Choice)
    (hapi : api (generateTextRequest (OpenAIService.init cfg) prompt options)
      = Except.ok completion)
    (hchoice : completion.choices.head? = some choice) :
    generateTextRun (OpenAIService.init cfg) api prompt options
      = (Except.ok choice.message.content,
         [generateTextRequest (OpenAIService.init cfg) prompt options]) ∧
    (generateTextRequest (OpenAIService.init cfg) prompt options).messages
      = [{ role := "user", content := prompt }] ∧
    (generateTextRequest (OpenAIService.init cfg) prompt options).model
      = (match options.model with
         | some s => if s = "" then "gpt-4o-mini" else s
         | none => "gpt-4o-mini") ∧
    (generateTextRequest (OpenAIService.init cfg) prompt options).max_tokens
      = some (match options.maxTokens with
         | some n => if n = 0 then 1000 else n
         | none => 1000) ∧
    (generateTextRequest (OpenAIService.init cfg) prompt options).temperature
      = some (match options.temperature with
         | some q => if q = 0 then (7 / 10 : Rat) else q
         | none => (7 / 10 : Rat)) := by
  constructor
  · simp only [generateTextRun, hapi, firstChoiceContent, hchoice]
  · exact ⟨rfl, rfl, rfl, rfl⟩

/-- C1 witness: at the default service, prompt "hello", empty options and
an oracle answering "Hi!", generateText returns exactly "Hi!". -/
theorem C1_generateText_request_and_result_witness :
    (generateTextRun svc0 apiOk "hello" {}).1 = Except.ok "Hi!" := by
  have h := C1_generateText_request_and_result (loadConfig envEmpty) "hello" {}
    apiOk
    { choices := [{ message := { role := "assistant", content := "Hi!" } }] }
    { message := { role := "assistant", content := "Hi!" } } rfl rfl
  exact congrArg Prod.fst h.1

/-- C2: analyzeTimetable selects the template by exact match on the
analysis type — "conflicts" yields the template containing the substring
"scheduling conflicts" with the serialized data embedded verbatim,
"optimization" and "load" their templates, and any other value (absence
included, via the default parameter "general") the general-analysis
template — then issues exactly the one generateText request with the empty
options record and passes a successful result through unchanged. -/
theorem C2_analyzeTimetable_templates_and_delegation (cfg : Config)
    (serializedData : String) (analysisType : Option String)
    (api : CompletionsApi) (content : String)
    (hok : (generateTextRun (OpenAIService.init cfg) api
        (analyzeTimetablePrompt serializedData analysisType) {}).1
      = Except.ok content) :
    analyzeTimetablePrompt serializedData (some "conflicts")
      = "Analyze the following timetable data for scheduling conflicts and provide recommendations: "
        ++ serializedData ∧
    (∃ pre post : String, analyzeTimetablePrompt serializedData (some "conflicts")
      = pre ++ "scheduling conflicts" ++ post ++ serializedData) ∧
    analyzeTimetablePrompt serializedData (some "optimization")
      = "Suggest optimizations for the following timetable to improve efficiency: "
        ++ serializedData ∧
    analyzeTimetablePrompt serializedData (some "load")
      = "Analyze the workload distribution in this timetable and suggest improvements: "
        ++ serializedData ∧
    (analysisType.getD "general" ∉ (["conflicts", "optimization", "load"] : List String) →
      analyzeTimetablePrompt serializedData analysisType
        = "Provide a general analysis of this timetable data: " ++ serializedData) ∧
    (analyzeTimetableRun (OpenAIService.init cfg) api serializedData analysisType).2
      = [generateTextRequest (OpenAIService.init cfg)
          (analyzeTimetablePrompt serializedData analysisType) {}] ∧
    (analyzeTimetableRun (OpenAIService.init cfg) api serializedData analysisType).1
      = Except.ok content := by
  refine ⟨rfl,
    ⟨"Analyze the following timetable data for ", " and provide recommendations: ", rfl⟩,
    rfl, rfl, ?_, ?_, ?_⟩
  · intro h
    simp only [List.mem_cons, List.not_mem_nil, not_or] at h
    obtain ⟨h1, h2, h3, -⟩ := h
    simp only [analyzeTimetablePrompt, if_neg h1, if_neg h2, if_neg h3]
  · exact analyzeTimetableRun_requests _ _ _ _
  · simp only [analyzeTimetableRun, hok]

/-- C2 witness: at serialized data "null" and analysis type "nonsense",
the general template is selected and the delegated result "Hi!" is
returned unchanged. -/
theorem C2_analyzeTimetable_templates_and_delegation_witness :
    (analyzeTimetableRun svc0 apiOk "null" (some "nonsense")).1
      = Except.ok "Hi!" ∧
    analyzeTimetablePrompt "null" (some "nonsense")
      = "Provide a general analysis of this timetable data: null" := by
  have h := C2_analyzeTimetable_templates_and_delegation (loadConfig envEmpty)
    "null" (some "nonsense") apiOk "Hi!" rfl
  exact ⟨h.2.2.2.2.2.2, h.2.2.2.2.1 (by decide)⟩

/-- C3: chat builds a request whose message list is exactly the history
followed by one new user message, with the default model "gpt-4o-mini",
max_tokens 1000, no temperature field, and returns the first completion
text. -/
theorem C3_chat_request_and_result (cfg : Config) (history : List ChatMessage)
    (message : String) (api : CompletionsApi) (completion : Completion)
    (choice : Choice)
    (hapi : api (chatRequest (OpenAIService.init cfg) history message)
      = Except.ok completion)
    (hchoice : completion.choices.head? = some choice) :
    (chatRequest (OpenAIService.init cfg) history message).messages
      = history ++ [{ role := "user", content := message }] ∧
    (chatRequest (OpenAIService.init cfg) history message).model
      = "gpt-4o-mini" ∧
    (chatRequest (OpenAIService.init cfg) history message).max_tokens
      = some 1000 ∧
    (chatRequest (OpenAIService.init cfg) history message).temperature
      = none ∧
    chatRun (OpenAIService.init cfg) api (some history) message
      = (Except.ok choice.message.content,
         [chatRequest (OpenAIService.init cfg) history message]) := by
  refine ⟨rfl, rfl, rfl, rfl, ?_⟩
  simp only [chatRun, Option.getD_some, hapi, firstChoiceContent, hchoice]

/-- C3 witness: the spec example — history [user "hi"] and message
"how are you?" yield the message list [user "hi", user "how are you?"]. -/
theorem C3_chat_request_and_result_witness :
    chatRun svc0 apiOk (some [{ role := "user", content := "hi" }]) "how are you?"
      = (Except.ok "Hi!",
         [chatRequest svc0 [{ role := "user", content := "hi" }] "how are you?"]) ∧
    (chatRequest svc0 [{ role := "user", content := "hi" }] "how are you?").messages
      = [{ role := "user", content := "hi" },
         { role := "user", content := "how are you?" }] := by
  have h := C3_chat_request_and_result (loadConfig envEmpty)
    [{ role := "user", content := "hi" }] "how are you?" apiOk
    { choices := [{ message := { role := "assistant", content := "Hi!" } }] }
    { message := { role := "assistant", content := "Hi!" } } rfl rfl
  exact ⟨h.2.2.2.2, h.1.trans rfl⟩

/-- C4: when OPENAI_API_KEY is unset or empty, validateConfig fails with
the message naming exactly the missing required variable; when it is a
non-empty string, validateConfig returns successfully (it is a pure check
with no other effect). -/
theorem C4_validateConfig_missing_key (env envOk : EnvMap) (s : String)
    (hmissing : env "OPENAI_API_KEY" = none ∨ env "OPENAI_API_KEY" = some "")
    (hset : envOk "OPENAI_API_KEY" = some s) (hs : s ≠ "") :
    validateConfig env
      = Except.error "Missing required environment variables: OPENAI_API_KEY" ∧
    validateConfig envOk = Except.ok () := by
  constructor
  · rcases hmissing with h | h <;> simp [validateConfig, h] <;> rfl
  · simp [validateConfig, hset, hs]

/-- C4 witness: the empty environment fails naming OPENAI_API_KEY; an
environment with the key set to "sk-test" validates. -/
theorem C4_validateConfig_missing_key_witness :
    validateConfig envEmpty
      = Except.error "Missing required environment variables: OPENAI_API_KEY" ∧
    validateConfig envAllSet = Except.ok () :=
  C4_validateConfig_missing_key envEmpty envAllSet "sk-test"
    (Or.inl rfl) rfl (by decide)

/-- C5: on any upstream failure, generateText yields exactly the fixed
generic message — the original detail e does not occur in the outcome —
and still issues exactly one request: no retry and no fallback. -/
theorem C5_generateText_error_wrapping (cfg : Config) (prompt : String)
    (options : GenerationOptions) (api : CompletionsApi) (e : String)
    (herr : api (generateTextRequest (OpenAIService.init cfg) prompt options)
      = Except.error e) :
    generateTextRun (OpenAIService.init cfg) api prompt options
      = (Except.error "Failed to generate text response",
         [generateTextRequest (OpenAIService.init cfg) prompt options]) := by
  simp only [generateTextRun, herr]

/-- C5 witness: an oracle failing with "ECONNRESET" produces the fixed
generic error and one issued request. -/
theorem C5_generateText_error_wrapping_witness :
    generateTextRun svc0 apiErr "hello" {}
      = (Except.error "Failed to generate text response",
         [generateTextRequest svc0 "hello" {}]) :=
  C5_generateText_error_wrapping (loadConfig envEmpty) "hello" {} apiErr
    "ECONNRESET" rfl

/-- C6 (counterexample): with PORT set to the empty string — a set
variable — the configuration carries the default 3000 rather than the set
value, because `process.env.PORT || 3000` treats "" as falsy. -/
theorem C6_empty_port_not_passed_through :
    (loadConfig envPortEmpty).port ≠ PortValue.str "" := by
  decide

/-- C6 (amended): for every environment, field by field and each variable
independently of the others — PORT, NODE_ENV and CORS_ORIGIN pass through
when set to a non-empty string (the set PORT string is carried as a
string) and take the documented defaults — port 3000 as a number,
"development", "http://localhost:5173" — when unset or set to the empty
string; the API key is read verbatim with no default; no error is
possible, loadConfig is total. -/
theorem C6_loadConfig_fields (env : EnvMap) :
    (∀ p, env "PORT" = some p → p ≠ "" →
      (loadConfig env).port = PortValue.str p) ∧
    (env "PORT" = none ∨ env "PORT" = some "" →
      (loadConfig env).port = PortValue.num 3000) ∧
    (∀ n, env "NODE_ENV" = some n → n ≠ "" →
      (loadConfig env).nodeEnv = n) ∧
    (env "NODE_ENV" = none ∨ env "NODE_ENV" = some "" →
      (loadConfig env).nodeEnv = "development") ∧
    (loadConfig env).openai.apiKey = env "OPENAI_API_KEY" ∧
    (∀ c, env "CORS_ORIGIN" = some c → c ≠ "" →
      (loadConfig env).cors.origin = c) ∧
    (env "CORS_ORIGIN" = none ∨ env "CORS_ORIGIN" = some "" →
      (loadConfig env).cors.origin = "http://localhost:5173") := by
  refine ⟨?_, ?_, ?_, ?_, rfl, ?_, ?_⟩
  · intro p hp hp0
    simp [loadConfig, hp, hp0]
  · rintro (h | h) <;> simp [loadConfig, h]
  · intro n hn hn0
    simp [loadConfig, jsOrString, hn, hn0]
  · rintro (h | h) <;> simp [loadConfig, jsOrString, h]
  · intro c hc hc0
    simp [loadConfig, jsOrString, hc, hc0]
  · rintro (h | h) <;> simp [loadConfig, jsOrString, h]

/-- C6 witness: in a mixed environment — PORT "8080", NODE_ENV "",
API key set, CORS_ORIGIN unset — the port passes through as the string,
the empty NODE_ENV takes its default, the key passes verbatim, and the
unset cors origin takes its default. -/
theorem C6_loadConfig_fields_witness :
    (loadConfig envMixed).port = PortValue.str "8080" ∧
    (loadConfig envMixed).nodeEnv = "development" ∧
    (loadConfig envMixed).openai.apiKey = some "sk-test" ∧
    (loadConfig envMixed).cors.origin = "http://localhost:5173" :=
  ⟨(C6_loadConfig_fields envMixed).1 "8080" (by decide) (by decide),
   (C6_loadConfig_fields envMixed).2.2.2.1 (Or.inr (by decide)),
   ((C6_loadConfig_fields envMixed).2.2.2.2.1).trans (by decide),
   (C6_loadConfig_fields envMixed).2.2.2.2.2.2 (Or.inl (by decide))⟩

/-- C7: generateTextStream builds the same single-turn message list and
default model as generateText with empty options, but with stream true and
no max_tokens or temperature fields; on failure to establish the stream it
yields the fixed generic streaming message. -/
theorem C7_generateTextStream_request (cfg : Config) (prompt : String)
    (api : StreamApi) (e : String)
    (herr : api (generateTextStreamRequest (OpenAIService.init cfg) prompt)
      = Except.error e) :
    (generateTextStreamRequest (OpenAIService.init cfg) prompt).messages
      = (generateTextRequest (OpenAIService.init cfg) prompt {}).messages ∧
    (generateTextStreamRequest (OpenAIService.init cfg) prompt).model
      = (generateTextRequest (OpenAIService.init cfg) prompt {}).model ∧
    (generateTextStreamRequest (OpenAIService.init cfg) prompt).model
      = "gpt-4o-mini" ∧
    (generateTextStreamRequest (OpenAIService.init cfg) prompt).stream = true ∧
    (generateTextStreamRequest (OpenAIService.init cfg) prompt).max_tokens
      = none ∧
    (generateTextStreamRequest (OpenAIService.init cfg) prompt).temperature
      = none ∧
    generateTextStreamRun (OpenAIService.init cfg) api prompt
      = (Except.error "Failed to generate streaming response",
         [generateTextStreamRequest (OpenAIService.init cfg) prompt]) := by
  refine ⟨rfl, rfl, rfl, rfl, rfl, rfl, ?_⟩
  simp only [generateTextStreamRun, herr]

/-- C7 witness: at prompt "hello" and a failing stream oracle, the fixed
streaming error results and the one request has stream true. -/
theorem C7_generateTextStream_request_witness :
    generateTextStreamRun svc0 streamApiErr "hello"
      = (Except.error "Failed to generate streaming response",
         [generateTextStreamRequest svc0 "hello"]) ∧
    (generateTextStreamRequest svc0 "hello").stream = true := by
  have h := C7_generateTextStream_request (loadConfig envEmpty) "hello"
    streamApiErr "ECONNRESET" rfl
  exact ⟨h.2.2.2.2.2.2, h.2.2.2.1⟩

/-- C8: each of the four service methods, embedded as an explicit state
transformer over the service state (client handle and default model),
returns that state unchanged for every argument and every oracle outcome;
the configuration is a pure value the methods never rebuild. -/
theorem C8_methods_preserve_state (cfg : Config) (api : CompletionsApi)
    (sapi : StreamApi) (prompt message serializedData : String)
    (options : GenerationOptions) (history : Option (List ChatMessage))
    (analysisType : Option String) :
    (generateTextMethod (OpenAIService.init cfg) api prompt options).2
      = OpenAIService.init cfg ∧
    (generateTextStreamMethod (OpenAIService.init cfg) sapi prompt).2
      = OpenAIService.init cfg ∧
    (chatMethod (OpenAIService.init cfg) api history message).2
      = OpenAIService.init cfg ∧
    (analyzeTimetableMethod (OpenAIService.init cfg) api serializedData
        analysisType).2
      = OpenAIService.init cfg :=
  ⟨rfl, rfl, rfl, rfl⟩

/-- C9: chat with the history argument absent (undefined, triggering the
default parameter) behaves exactly as chat with the explicit empty
history, and the constructed message list is the single new user
message. -/
theorem C9_chat_default_history (cfg : Config) (api : CompletionsApi)
    (message : String) :
    chatRun (OpenAIService.init cfg) api none message
      = chatRun (OpenAIService.init cfg) api (some []) message ∧
    (chatRequest (OpenAIService.init cfg) [] message).messages
      = [{ role := "user", content := message }] :=
  ⟨rfl, rfl⟩

/-- C10: an optional variable set to the empty string is treated exactly
as an unset one — the configuration equals the one loaded from the
environment with that variable removed — and the corresponding field takes
its documented default. -/
theorem C10_empty_optional_var_as_unset (env : EnvMap) (v : String)
    (hv : v ∈ (["PORT", "NODE_ENV", "CORS_ORIGIN"] : List String))
    (hempty : env v = some "") :
    loadConfig env = loadConfig (fun w => if w = v then none else env w) ∧
    (v = "PORT" → (loadConfig env).port = PortValue.num 3000) ∧
    (v = "NODE_ENV" → (loadConfig env).nodeEnv = "development") ∧
    (v = "CORS_ORIGIN" →
      (loadConfig env).cors.origin = "http://localhost:5173") := by
  simp only [List.mem_cons, List.not_mem_nil, or_false] at hv
  rcases hv with rfl | rfl | rfl
  · refine ⟨?_, fun _ => ?_, ?_, ?_⟩
    · simp [loadConfig, jsOrString, hempty]
    · simp [loadConfig, hempty]
    · intro h; exact absurd h (by decide)
    · intro h; exact absurd h (by decide)
  · refine ⟨?_, ?_, fun _ => ?_, ?_⟩
    · simp [loadConfig, jsOrString, hempty]
    · intro h; exact absurd h (by decide)
    · simp [loadConfig, jsOrString, hempty]
    · intro h; exact absurd h (by decide)
  · refine ⟨?_, ?_, ?_, fun _ => ?_⟩
    · simp [loadConfig, jsOrString, hempty]
    · intro h; exact absurd h (by decide)
    · intro h; exact absurd h (by decide)
    · simp [loadConfig, jsOrString, hempty]

/-- C10 witness: with PORT set to the empty string, the loaded port is the
default 3000. -/
theorem C10_empty_optional_var_as_unset_witness :
    (loadConfig envPortEmpty).port = PortValue.num 3000 :=
  (C10_empty_optional_var_as_unset envPortEmpty "PORT" (by decide)
    (by decide)).2.1 rfl

end TTAutomation
